import Mathlib

/-!
Shallow embedding of `src/selenium/bandcamp_discover.py`.

The program drives a browser through a paginated "discover" carousel,
extracts track records (title, artist, genre) from each page's visible
items, and appends them to a CSV store.  We model:

* the DOM environment (`Item`, `Env`): each visible carousel view is a
  list of items, each item's three sub-elements either resolve to a text
  (`some s`, subsequently stripped) or fail to resolve (`none`, covering
  missing/stale/unreadable elements);
* the mutable run state (`St`): the CSV store contents (`none` = the
  file does not exist), the `file_exists` flag computed in `__init__`,
  the `count(1)` id cursor, the carousel position, and observational
  traces (log lines, click count, header writes, the batches handed to
  the writer);
* the operations `get_total_pages`, `collect_track_info`
  (`_collect_track_info`), `append_tracks_to_csv` (`_append_tracks_to_csv`),
  `processPage` (the body of the page loop in `get_tracks`), `get_tracks`,
  and the module-level `runScript` (construct, `get_tracks`, `close`).

Fatal conditions (visibility-wait timeout, missing next button) are
modelled with `Except St St`: `Except.error s` is an uncaught exception
propagating with the state `s` reached so far (the browser is then never
closed, the store keeps what was appended).
-/

/-- Expected number of visible items per carousel page
(`EXPECTED_TRACKS_PER_PAGE = 8`). -/
def EXPECTED_TRACKS_PER_PAGE : Nat := 8

/-- The `Track` namedtuple: `['id', 'page', 'title', 'artist', 'genre']`. -/
structure Track where
  id : Nat
  page : Nat
  title : String
  artist : String
  genre : String
deriving DecidableEq

/-- `Track._fields`, the header row written by `_append_tracks_to_csv`. -/
def trackFields : List String := ["id", "page", "title", "artist", "genre"]

/-- Serialization of one track by `csv.writer.writerows`: the five fields,
in declaration order, numbers rendered in decimal. -/
def trackToRow (t : Track) : List String :=
  [toString t.id, toString t.page, t.title, t.artist, t.genre]

/-- Python's `str.strip()`: drop leading and trailing whitespace.
(Defined by structural recursion over the character list so that
concrete runs evaluate inside the kernel.) -/
def strip (s : String) : String :=
  ⟨((s.data.dropWhile Char.isWhitespace).reverse.dropWhile Char.isWhitespace).reverse⟩

/-- A DOM item of the discover block.  `displayed` models
`item.is_displayed()`; each `…Text` field models the attempt
`item.find_element(By.CLASS_NAME, …).text`: `none` when the lookup (or
text read) raises, `some s` when it yields the raw text `s`. -/
structure Item where
  displayed : Bool
  titleText : Option String
  artistText : Option String
  genreText : Option String
deriving DecidableEq

/-- An item whose three sub-elements all resolve. -/
def wellFormed (i : Item) : Bool :=
  i.titleText.isSome && i.artistText.isSome && i.genreText.isSome

/-- A displayed, fully resolvable item. -/
def goodItem (i : Item) : Bool :=
  i.displayed && wellFormed i

/-- Observable log lines (`print` calls) and session events. -/
inductive LogEntry where
  | totalPagesError : LogEntry
  | trackCollected : String → LogEntry
  | trackError : Nat → LogEntry
  | pageCountMismatch : Nat → Nat → LogEntry
  | browserClosed : LogEntry
deriving DecidableEq

/-- The browser/DOM environment of one run.  `views` is the carousel:
`views[k]` is the item list of the discover block after `k` successful
next-clicks.  `pagination` is the text of the second-to-last pagination
element parsed as an integer (`none` = the lookup or `int()` raises).
`discoverVisible = false` makes the visibility wait time out (fatal);
`nextBtnPresent = false` makes `find_element` on the next button raise
(fatal). -/
structure Env where
  pagination : Option Int
  views : List (List Item)
  discoverVisible : Bool
  nextBtnPresent : Bool
deriving DecidableEq

/-- Run state.  `store = none` models a missing `tracks.csv`; `some rows`
its row contents.  `cursor` is the next value of the `count(1)` iterator.
`pos` is the carousel position (how many next-clicks happened).
`headersWritten`, `clicks`, `batches` and `log` record the observable
events: header rows emitted, next-button clicks performed, each batch
passed to `_append_tracks_to_csv` tagged with the 1-based page number
being processed, and log lines. -/
structure St where
  file_exists : Bool
  store : Option (List (List String))
  cursor : Nat
  pos : Nat
  clicks : Nat
  headersWritten : Nat
  batches : List (Nat × List Track)
  log : List LogEntry
  browserOpen : Bool
deriving DecidableEq

/-- Contents of the store once opened in append mode (opening creates a
missing file empty). -/
def storeContents : Option (List (List String)) → List (List String)
  | none => []
  | some rows => rows

/-- All tracks of a batch list, in write order. -/
def flatBatches : List (Nat × List Track) → List Track
  | [] => []
  | b :: bs => b.2 ++ flatBatches bs

/-- All tracks written to the store during the run, in write order. -/
def writtenTracks (s : St) : List Track :=
  flatBatches s.batches

/-- State right after `DiscoverGatherer.__init__` with the store file in
state `store0`: `file_exists = CSV_FILE_PATH.exists()`. -/
def initSt (store0 : Option (List (List String))) : St :=
  { file_exists := store0.isSome
    store := store0
    cursor := 1
    pos := 0
    clicks := 0
    headersWritten := 0
    batches := []
    log := []
    browserOpen := true }

/-- `get_total_pages`: read the second-to-last pagination element's text
as an int; on any exception print an error and return 0. -/
def get_total_pages (env : Env) : Int × List LogEntry :=
  match env.pagination with
  | some n => (n, [])
  | none => (0, [LogEntry.totalPagesError])

/-- `_collect_track_info`: walk the visible items; for each, resolve
title, artist and genre (stripping whitespace); on success emit a track
carrying the next cursor id and log the collection; on any sub-element
failure log the per-item error for this page and continue, consuming no
id.  Returns the collected tracks, the new cursor, and the log lines. -/
def collect_track_info : List Item → Nat → Nat → List Track × Nat × List LogEntry
  | [], cursor, _ => ([], cursor, [])
  | item :: rest, cursor, page_num =>
    match item.titleText, item.artistText, item.genreText with
    | some t, some a, some g =>
      let track : Track :=
        { id := cursor, page := page_num
          title := strip t, artist := strip a, genre := strip g }
      let r := collect_track_info rest (cursor + 1) page_num
      (track :: r.1, r.2.1, LogEntry.trackCollected (strip t) :: r.2.2)
    | _, _, _ =>
      let r := collect_track_info rest cursor page_num
      (r.1, r.2.1, LogEntry.trackError page_num :: r.2.2)

/-- `_append_tracks_to_csv`: open the store in append mode (creating it
if missing), write the header row `Track._fields` first when
`file_exists` is still false (then set it), then append every row of the
batch in order.  Returns the new `file_exists` flag, the new store
contents, and how many header rows this call wrote. -/
def append_tracks_to_csv (file_exists : Bool) (store : Option (List (List String)))
    (data : List Track) : Bool × Option (List (List String)) × Nat :=
  let opened := storeContents store
  if file_exists then
    (file_exists, some (opened ++ data.map trackToRow), 0)
  else
    (true, some (opened ++ [trackFields] ++ data.map trackToRow), 1)

/-- One iteration of the page loop in `get_tracks`, at 1-based page
number `page_num`.  Wait for the discover block (timeout = fatal), take
the items of the current carousel view, filter to the displayed ones; on
a count ≠ 8 print the warning and `continue` (nothing else happens);
otherwise collect the tracks, append them to the CSV, then locate the
next button (missing = fatal, after the append) and click it. -/
def processPage (env : Env) (s : St) (page_num : Nat) : Except St St :=
  if env.discoverVisible = false then Except.error s
  else
    let discover_items := env.views.getD s.pos []
    let visible_tracks := discover_items.filter (fun i => i.displayed)
    if visible_tracks.length ≠ EXPECTED_TRACKS_PER_PAGE then
      Except.ok { s with
        log := s.log ++ [LogEntry.pageCountMismatch visible_tracks.length page_num] }
    else
      let r := collect_track_info visible_tracks s.cursor page_num
      let w := append_tracks_to_csv s.file_exists s.store r.1
      let s' : St := { s with
        cursor := r.2.1
        file_exists := w.1
        store := w.2.1
        headersWritten := s.headersWritten + w.2.2
        batches := s.batches ++ [(page_num, r.1)]
        log := s.log ++ r.2.2 }
      if env.nextBtnPresent = false then Except.error s'
      else Except.ok { s' with pos := s'.pos + 1, clicks := s'.clicks + 1 }

/-- The page loop of `get_tracks` over the remaining 1-based page
numbers; a fatal error aborts the loop carrying the state reached. -/
def runPages (env : Env) : List Nat → St → Except St St
  | [], s => Except.ok s
  | pn :: rest, s =>
    match processPage env s pn with
    | Except.ok s' => runPages env rest s'
    | Except.error s' => Except.error s'

/-- `get_tracks`: fresh `count(1)` cursor, read the total page count,
return immediately when it is 0, otherwise run the page loop over
`range(total_pages)` (1-based page numbers `page_num + 1`). -/
def get_tracks (env : Env) (store0 : Option (List (List String))) : Except St St :=
  let s0 := initSt store0
  let tp := get_total_pages env
  let s1 : St := { s0 with log := s0.log ++ tp.2 }
  if tp.1 = 0 then Except.ok s1
  else runPages env ((List.range tp.1.toNat).map (fun i => i + 1)) s1

/-- `close`: quit the browser and log it. -/
def closeBrowser (s : St) : St :=
  { s with browserOpen := false, log := s.log ++ [LogEntry.browserClosed] }

/-- The module-level script: construct the gatherer (capturing whether
the store file exists), run `get_tracks`, then `close()`.  An uncaught
exception in `get_tracks` propagates: `close()` never runs. -/
def runScript (env : Env) (store0 : Option (List (List String))) : Except St St :=
  match get_tracks env store0 with
  | Except.ok s => Except.ok (closeBrowser s)
  | Except.error s => Except.error s

/-- The state a run ends in, whether it completed normally or aborted
with a fatal error. -/
def resultSt : Except St St → St
  | Except.ok s => s
  | Except.error s => s

/-! ### Helper lemmas -/

theorem flatBatches_append (l1 l2 : List (Nat × List Track)) :
    flatBatches (l1 ++ l2) = flatBatches l1 ++ flatBatches l2 := by
  induction l1 with
  | nil => simp [flatBatches]
  | cons b bs ih => simp [flatBatches, ih]

theorem collect_cursor_eq : ∀ (items : List Item) (c pn : Nat),
    (collect_track_info items c pn).2.1 = c + (collect_track_info items c pn).1.length
  | [], c, pn => by simp [collect_track_info]
  | item :: rest, c, pn => by
    rcases item with ⟨d, t, a, g⟩
    cases t <;> cases a <;> cases g <;>
      (simp [collect_track_info, collect_cursor_eq rest _ pn]; try omega)

theorem collect_ids_eq : ∀ (items : List Item) (c pn : Nat),
    (collect_track_info items c pn).1.map Track.id =
      List.range' c (collect_track_info items c pn).1.length
  | [], c, pn => by simp [collect_track_info]
  | item :: rest, c, pn => by
    rcases item with ⟨d, t, a, g⟩
    cases t <;> cases a <;> cases g <;>
      simp [collect_track_info, collect_ids_eq rest _ pn, List.range'_succ]

theorem collect_length_le : ∀ (items : List Item) (c pn : Nat),
    (collect_track_info items c pn).1.length ≤ items.length
  | [], c, pn => by simp [collect_track_info]
  | item :: rest, c, pn => by
    rcases item with ⟨d, t, a, g⟩
    cases t <;> cases a <;> cases g <;> simp [collect_track_info] <;>
      have h := collect_length_le rest (c + 1) pn <;>
      have h' := collect_length_le rest c pn <;> omega

theorem collect_pages_eq : ∀ (items : List Item) (c pn : Nat),
    ∀ t ∈ (collect_track_info items c pn).1, t.page = pn
  | [], c, pn => by simp [collect_track_info]
  | item :: rest, c, pn => by
    rcases item with ⟨d, ti, a, g⟩
    cases ti <;> cases a <;> cases g <;> simp only [collect_track_info] <;>
      intro t ht
    case some.some.some =>
      rcases List.mem_cons.mp ht with h | h
      · simp [h]
      · exact collect_pages_eq rest (c + 1) pn t h
    all_goals exact collect_pages_eq rest c pn t ht

/-! ### C4: a failed item is skipped, logged, consumes no id, siblings continue -/

/-- C4: an item whose title, artist or genre sub-element fails to
resolve yields no record (not even partial), contributes one per-item
error log line carrying the page number, consumes no id from the cursor,
and the remaining sibling items are processed exactly as they would be
without it. -/
theorem collect_skips_failed_item (item : Item) (rest : List Item) (cursor page_num : Nat)
    (h : wellFormed item = false) :
    collect_track_info (item :: rest) cursor page_num =
      ((collect_track_info rest cursor page_num).1,
       (collect_track_info rest cursor page_num).2.1,
       LogEntry.trackError page_num :: (collect_track_info rest cursor page_num).2.2) := by
  rcases item with ⟨d, t, a, g⟩
  cases t <;> cases a <;> cases g <;> simp_all [collect_track_info, wellFormed]

/-- Witness for C4 at a concrete failed item: its artist is missing, so
it is skipped with a logged error; the well-formed sibling is still
collected with the untouched cursor id 5. -/
theorem collect_skips_failed_item_witness :
    collect_track_info
      [{ displayed := true, titleText := some "t0", artistText := none, genreText := some "g0" },
       { displayed := true, titleText := some "t1", artistText := some "a1", genreText := some "g1" }]
      5 3 =
      ([{ id := 5, page := 3, title := "t1", artist := "a1", genre := "g1" }], 6,
       [LogEntry.trackError 3, LogEntry.trackCollected "t1"]) :=
  (collect_skips_failed_item
      { displayed := true, titleText := some "t0", artistText := none, genreText := some "g0" }
      [{ displayed := true, titleText := some "t1", artistText := some "a1", genreText := some "g1" }]
      5 3 (by decide)).trans (by decide)

/-! ### C8: the writer appends in order and never truncates -/

/-- C8: one call of the Record Writer yields exactly the previous store
contents, then (only when `file_exists` was still false) the single
header row, then the batch's rows in batch order; in particular the
previously persisted rows survive unchanged as a prefix of the result
(no truncation or rewrite), and an empty batch adds no data row. -/
theorem append_preserves_and_appends (fe : Bool) (store : Option (List (List String)))
    (data : List Track) :
    (append_tracks_to_csv fe store data).2.1 =
      some (storeContents store ++ (if fe then [] else [trackFields]) ++ data.map trackToRow) ∧
    (storeContents (append_tracks_to_csv fe store data).2.1).take
        (storeContents store).length = storeContents store := by
  cases fe <;>
    simp [append_tracks_to_csv, storeContents, List.append_assoc, List.take_append]

/-! ### C1: a wrong visible-item count skips the page (corrected) -/

/-- C1 (amended): on a page whose visible-item count is not 8, the loop
body only logs the warning naming the observed count and the page — no
extraction, no write, no id consumption, no change to the carousel
position, and no next-page click is attempted; the run proceeds directly
to the next loop iteration. -/
theorem processPage_mismatch_skips (env : Env) (s : St) (page_num : Nat)
    (hvis : env.discoverVisible = true)
    (hcnt : ((env.views.getD s.pos []).filter (fun i => i.displayed)).length ≠
      EXPECTED_TRACKS_PER_PAGE) :
    processPage env s page_num =
      Except.ok { s with log := s.log ++
        [LogEntry.pageCountMismatch
          ((env.views.getD s.pos []).filter (fun i => i.displayed)).length page_num] } := by
  have hcnt' : ((env.views[s.pos]?.getD []).filter (fun i => i.displayed)).length ≠
      EXPECTED_TRACKS_PER_PAGE := by simpa using hcnt
  simp [processPage, hvis, hcnt']

/-- Witness for C1's amended theorem: a single page showing 0 visible
items is skipped with only the warning logged. -/
theorem processPage_mismatch_skips_witness :
    processPage { pagination := some 1, views := [[]], discoverVisible := true,
                  nextBtnPresent := true } (initSt none) 1 =
      Except.ok { initSt none with log := [LogEntry.pageCountMismatch 0 1] } :=
  (processPage_mismatch_skips
      { pagination := some 1, views := [[]], discoverVisible := true, nextBtnPresent := true }
      (initSt none) 1 rfl (by decide)).trans (congrArg Except.ok (by decide))

/-- Counterexample to C1 as stated: with a single page showing 0 visible
items and NO next button in the DOM, the run still completes normally
with zero clicks — so no next-page click was ever attempted for the
skipped page (the `continue` jumps straight to the next iteration,
bypassing the click; an attempted click would have raised on the missing
button, and with a present button the click count would be 1). -/
theorem mismatch_no_click_counterexample :
    runScript { pagination := some 1, views := [[]], discoverVisible := true,
                nextBtnPresent := false } none =
      Except.ok { file_exists := false, store := none, cursor := 1, pos := 0, clicks := 0,
                  headersWritten := 0, batches := [],
                  log := [LogEntry.pageCountMismatch 0 1, LogEntry.browserClosed],
                  browserOpen := false } := by
  rfl

/-! ### C5: failed pagination lookup means zero pages, untouched store, clean close -/

/-- C5: when the pagination lookup fails, `get_total_pages` returns 0,
the page loop is skipped — the store is exactly as it started, nothing
was collected — and the script still closes the browser, completing
normally (no error escapes). -/
theorem zero_pages_untouched_store_clean_close (env : Env)
    (store0 : Option (List (List String))) (h : env.pagination = none) :
    (get_total_pages env).1 = 0 ∧
    runScript env store0 =
      Except.ok { initSt store0 with
        log := [LogEntry.totalPagesError, LogEntry.browserClosed], browserOpen := false } := by
  refine ⟨by simp [get_total_pages, h], ?_⟩
  simp [runScript, get_tracks, get_total_pages, h, initSt, closeBrowser]

/-- Witness for C5: a failing pagination read over a populated store
leaves the row intact, collects nothing, and closes the browser. -/
theorem zero_pages_untouched_store_clean_close_witness :
    (get_total_pages { pagination := none, views := [], discoverVisible := true,
                       nextBtnPresent := true }).1 = 0 ∧
    runScript { pagination := none, views := [], discoverVisible := true,
                nextBtnPresent := true } (some [["x"]]) =
      Except.ok { initSt (some [["x"]]) with
        log := [LogEntry.totalPagesError, LogEntry.browserClosed], browserOpen := false } :=
  zero_pages_untouched_store_clean_close
    { pagination := none, views := [], discoverVisible := true, nextBtnPresent := true }
    (some [["x"]]) rfl

/-! ### Case analysis of one loop iteration, and generic invariant lifting -/

/-- One loop iteration either leaves the state untouched (fatal wait
timeout), only logs the count-mismatch warning, or — when exactly 8
items are visible — extracts, appends, and possibly advances the
carousel (the position and click count depending on whether the next
button was found before the fatal error). -/
theorem processPage_cases (env : Env) (s : St) (pn : Nat) :
    resultSt (processPage env s pn) = s ∨
    resultSt (processPage env s pn) =
      { s with log := s.log ++ [LogEntry.pageCountMismatch
          ((env.views.getD s.pos []).filter (fun i => i.displayed)).length pn] } ∨
    (((env.views.getD s.pos []).filter (fun i => i.displayed)).length =
        EXPECTED_TRACKS_PER_PAGE ∧
      ∃ pos' clicks', resultSt (processPage env s pn) =
        { s with
          cursor := (collect_track_info
            ((env.views.getD s.pos []).filter (fun i => i.displayed)) s.cursor pn).2.1
          file_exists := (append_tracks_to_csv s.file_exists s.store (collect_track_info
            ((env.views.getD s.pos []).filter (fun i => i.displayed)) s.cursor pn).1).1
          store := (append_tracks_to_csv s.file_exists s.store (collect_track_info
            ((env.views.getD s.pos []).filter (fun i => i.displayed)) s.cursor pn).1).2.1
          headersWritten := s.headersWritten + (append_tracks_to_csv s.file_exists s.store
            (collect_track_info
              ((env.views.getD s.pos []).filter (fun i => i.displayed)) s.cursor pn).1).2.2
          batches := s.batches ++ [(pn, (collect_track_info
            ((env.views.getD s.pos []).filter (fun i => i.displayed)) s.cursor pn).1)]
          log := s.log ++ (collect_track_info
            ((env.views.getD s.pos []).filter (fun i => i.displayed)) s.cursor pn).2.2
          pos := pos'
          clicks := clicks' }) := by
  by_cases hv : env.discoverVisible = false
  · left
    simp [processPage, hv, resultSt]
  · by_cases hc : ((env.views[s.pos]?.getD []).filter (fun i => i.displayed)).length =
      EXPECTED_TRACKS_PER_PAGE
    · right; right
      refine ⟨by simpa using hc, ?_⟩
      by_cases hb : env.nextBtnPresent = false
      · exact ⟨s.pos, s.clicks, by simp [processPage, hv, hc, hb, resultSt]⟩
      · exact ⟨s.pos + 1, s.clicks + 1, by simp [processPage, hv, hc, hb, resultSt]⟩
    · right; left
      simp [processPage, hv, hc, resultSt]

/-- Any property preserved by each loop iteration survives the whole
page loop, whether it finishes or aborts fatally. -/
theorem runPages_preserve (P : St → Prop) (env : Env)
    (hstep : ∀ s pn, P s → P (resultSt (processPage env s pn))) :
    ∀ (pns : List Nat) (s : St), P s → P (resultSt (runPages env pns s))
  | [], s, h => h
  | pn :: rest, s, h => by
    have hs := hstep s pn h
    cases hpp : processPage env s pn with
    | ok s' =>
      rw [hpp] at hs
      have := runPages_preserve P env hstep rest s' hs
      simpa [runPages, hpp] using this
    | error s' =>
      rw [hpp] at hs
      simpa [runPages, hpp, resultSt] using hs

/-- Any property preserved by each loop iteration and by `close`, and
holding at the state right after `get_total_pages`, holds at the end of
the script — normal or fatal. -/
theorem runScript_preserve (P : St → Prop) (env : Env) (store0 : Option (List (List String)))
    (hstep : ∀ s pn, P s → P (resultSt (processPage env s pn)))
    (hclose : ∀ s, P s → P (closeBrowser s))
    (hinit : P { initSt store0 with log := (initSt store0).log ++ (get_total_pages env).2 }) :
    P (resultSt (runScript env store0)) := by
  have hgt : P (resultSt (get_tracks env store0)) := by
    unfold get_tracks
    by_cases h0 : (get_total_pages env).1 = 0
    · simpa [h0, resultSt] using hinit
    · simpa [h0] using
        runPages_preserve P env hstep
          ((List.range (get_total_pages env).1.toNat).map (fun i => i + 1)) _ hinit
  unfold runScript
  cases hg : get_tracks env store0 with
  | ok s =>
    rw [hg] at hgt
    exact hclose s (by simpa [resultSt] using hgt)
  | error s =>
    rw [hg] at hgt
    simpa [resultSt] using hgt

/-! ### C2 and C7: header discipline and the shape of the persisted store -/

/-- Relation between the run state and the store it started from: while
no batch has been written the file is untouched; once one has, the store
is the original contents, then the single header row exactly when the
file did not exist at process start, then the written tracks' rows. -/
def StoreInv (store0 : Option (List (List String))) (s : St) : Prop :=
  (s.batches = [] → s.store = store0 ∧ s.file_exists = store0.isSome ∧ s.headersWritten = 0) ∧
  (s.batches ≠ [] →
    s.store = some (storeContents store0 ++
      (if store0.isSome then [] else [trackFields]) ++ (writtenTracks s).map trackToRow) ∧
    s.file_exists = true ∧ s.headersWritten = (if store0.isSome then 0 else 1))

theorem storeInv_processPage (env : Env) (store0 : Option (List (List String))) (s : St)
    (pn : Nat) (h : StoreInv store0 s) : StoreInv store0 (resultSt (processPage env s pn)) := by
  rcases processPage_cases env s pn with hc | hc | ⟨hlen, pos', clicks', hc⟩
  · rw [hc]; exact h
  · rw [hc]; exact h
  · rw [hc]
    by_cases hb0 : s.batches = []
    · obtain ⟨hst, hfe, hhw⟩ := h.1 hb0
      constructor
      · intro hbn
        exact absurd (List.append_eq_nil.mp hbn).2 (by simp)
      · intro _
        cases store0 with
        | none =>
          simp_all [writtenTracks, flatBatches, append_tracks_to_csv, storeContents]
        | some rows =>
          simp_all [writtenTracks, flatBatches, append_tracks_to_csv, storeContents]
    · obtain ⟨hst, hfe, hhw⟩ := h.2 hb0
      constructor
      · intro hbn
        exact absurd (List.append_eq_nil.mp hbn).2 (by simp)
      · intro _
        simp_all [writtenTracks, flatBatches_append, flatBatches, append_tracks_to_csv,
          storeContents, List.map_append, List.append_assoc]

theorem storeInv_runScript (env : Env) (store0 : Option (List (List String))) :
    StoreInv store0 (resultSt (runScript env store0)) := by
  refine runScript_preserve (StoreInv store0) env store0
    (fun s pn h => storeInv_processPage env store0 s pn h) (fun s h => h) ?_
  exact ⟨fun _ => ⟨rfl, rfl, rfl⟩, fun hbn => absurd rfl hbn⟩

/-- C2 (amended): a run writes the header row exactly when the store
file did not exist at process start AND at least one batch write
happened during the run; in particular at most one header is written per
run, and a run against an already-existing store — populated or empty —
never writes a header. -/
theorem header_iff_new_file_and_write (env : Env) (store0 : Option (List (List String))) :
    (resultSt (runScript env store0)).headersWritten =
      if store0 = none ∧ (resultSt (runScript env store0)).batches ≠ [] then 1 else 0 := by
  have h := storeInv_runScript env store0
  by_cases hb : (resultSt (runScript env store0)).batches = []
  · obtain ⟨-, -, hw⟩ := h.1 hb
    simp [hw, hb]
  · obtain ⟨-, -, hw⟩ := h.2 hb
    cases store0 <;> simp_all

/-- Counterexample to C2 as stated: the store file exists but is empty
at process start, the single page holds 8 displayed items whose
sub-elements all fail to resolve.  The writer is invoked once (one
batch), yet no header row is ever written and the store stays literally
empty — refuting "the header is written if and only if the store was
empty or nonexistent at the start": the code tests file existence, not
emptiness. -/
theorem header_not_written_on_empty_file_counterexample :
    (resultSt (runScript
      { pagination := some 1,
        views := [List.replicate 8
          { displayed := true, titleText := none, artistText := none, genreText := none }],
        discoverVisible := true, nextBtnPresent := true } (some []))).headersWritten = 0 ∧
    (resultSt (runScript
      { pagination := some 1,
        views := [List.replicate 8
          { displayed := true, titleText := none, artistText := none, genreText := none }],
        discoverVisible := true, nextBtnPresent := true } (some []))).batches.length = 1 ∧
    (resultSt (runScript
      { pagination := some 1,
        views := [List.replicate 8
          { displayed := true, titleText := none, artistText := none, genreText := none }],
        discoverVisible := true, nextBtnPresent := true } (some []))).store = some [] := by
  refine ⟨rfl, rfl, rfl⟩

/-- C7 (amended): the persisted store after a run is either untouched or
equals the starting contents, then — exactly when the file was new — a
single header row holding the namedtuple's field names
`id, page, title, artist, genre` in that canonical order, then one row
per written track with its fields in the canonical order
id (sequence), page, title, artist, genre. -/
theorem store_shape_header_and_rows (env : Env) (store0 : Option (List (List String))) :
    (resultSt (runScript env store0)).store = store0 ∨
    (resultSt (runScript env store0)).store =
      some (storeContents store0 ++
        (if store0.isSome then [] else [["id", "page", "title", "artist", "genre"]]) ++
        (writtenTracks (resultSt (runScript env store0))).map
          (fun t => [toString t.id, toString t.page, t.title, t.artist, t.genre])) := by
  have h := storeInv_runScript env store0
  by_cases hb : (resultSt (runScript env store0)).batches = []
  · exact Or.inl (h.1 hb).1
  · exact Or.inr (h.2 hb).1

/-- Counterexample to C7 as stated: a run over a new store writes the
header row `id, page, title, artist, genre` — the namedtuple's field
names — which is not the claimed name list
`sequence_id, page_number, title, artist, genre`. -/
theorem header_names_counterexample :
    (resultSt (runScript
      { pagination := some 1,
        views := [List.replicate 8
          { displayed := true, titleText := none, artistText := none, genreText := none }],
        discoverVisible := true, nextBtnPresent := true } none)).store =
      some [["id", "page", "title", "artist", "genre"]] ∧
    (["id", "page", "title", "artist", "genre"] : List String) ≠
      ["sequence_id", "page_number", "title", "artist", "genre"] := by
  exact ⟨rfl, by decide⟩

/-! ### C3: written sequence ids are 1, 2, 3, … with no gaps or reuse -/

/-- Coupling of the id cursor with the tracks written so far: the ids
are exactly `1, …, n` in write order and the cursor stands at `n + 1`. -/
def IdInv (s : St) : Prop :=
  (writtenTracks s).map Track.id = List.range' 1 (writtenTracks s).length ∧
  s.cursor = 1 + (writtenTracks s).length

theorem idInv_processPage (env : Env) (s : St) (pn : Nat) (h : IdInv s) :
    IdInv (resultSt (processPage env s pn)) := by
  rcases processPage_cases env s pn with hc | hc | ⟨hlen, pos', clicks', hc⟩
  · rw [hc]; exact h
  · rw [hc]; exact h
  · rw [hc]
    obtain ⟨hids, hcur⟩ := h
    constructor
    · simp only [writtenTracks, flatBatches_append, flatBatches, List.append_nil,
        List.map_append, List.length_append]
      rw [show flatBatches s.batches = writtenTracks s from rfl, hids, collect_ids_eq, hcur]
      rw [List.range'_append_1]
      congr 1
      simp [writtenTracks]
      omega
    · simp only [writtenTracks, flatBatches_append, flatBatches, List.append_nil,
        List.length_append]
      rw [collect_cursor_eq]
      rw [show flatBatches s.batches = writtenTracks s from rfl, hcur]
      omega

/-- C3: across any whole run, the sequence ids of the records written to
the store, taken in write order over all pages, are exactly
`1, 2, …, n` — strictly increasing, contiguous, starting at 1, with no
gap and no reuse — however many items or pages were skipped. -/
theorem written_ids_contiguous (env : Env) (store0 : Option (List (List String))) :
    (writtenTracks (resultSt (runScript env store0))).map Track.id =
      List.range' 1 (writtenTracks (resultSt (runScript env store0))).length := by
  have h : IdInv (resultSt (runScript env store0)) := by
    refine runScript_preserve IdInv env store0
      (fun s pn h => idInv_processPage env s pn h) (fun s h => h) ?_
    exact ⟨rfl, rfl⟩
  exact h.1

/-! ### C9: if every page's count mismatches, the store file is never opened -/

theorem processPage_all_mismatch_no_batch (env : Env) (s : St) (pn : Nat)
    (hv : ∀ content ∈ env.views,
      (content.filter (fun i => i.displayed)).length ≠ EXPECTED_TRACKS_PER_PAGE) :
    (resultSt (processPage env s pn)).batches = s.batches ∧
    (resultSt (processPage env s pn)).store = s.store := by
  have hne : ((env.views.getD s.pos []).filter (fun i => i.displayed)).length ≠
      EXPECTED_TRACKS_PER_PAGE := by
    rw [List.getD_eq_getElem?_getD]
    cases hvc : env.views[s.pos]? with
    | none => simp [hvc, EXPECTED_TRACKS_PER_PAGE]
    | some content =>
      simp only [hvc, Option.getD_some]
      exact hv content (List.getElem?_mem hvc)
  rcases processPage_cases env s pn with hc | hc | ⟨hlen, _, _, hc⟩
  · rw [hc]; exact ⟨rfl, rfl⟩
  · rw [hc]; exact ⟨rfl, rfl⟩
  · exact absurd hlen hne

/-- C9: when the pagination count is positive but every carousel view
shows a visible-item count different from 8, no batch is ever handed to
the Record Writer — so the store file is never opened or created: a
nonexistent store stays nonexistent and an existing store's contents are
unchanged. -/
theorem all_mismatch_store_untouched (env : Env) (store0 : Option (List (List String)))
    (_hpos : 0 < (get_total_pages env).1)
    (hv : ∀ content ∈ env.views,
      (content.filter (fun i => i.displayed)).length ≠ EXPECTED_TRACKS_PER_PAGE) :
    (resultSt (runScript env store0)).batches = [] ∧
    (resultSt (runScript env store0)).store = store0 := by
  refine runScript_preserve (fun s => s.batches = [] ∧ s.store = store0) env store0
    (fun s pn h => ?_) (fun s h => h) ⟨rfl, rfl⟩
  obtain ⟨hb, hs⟩ := h
  obtain ⟨hb', hs'⟩ := processPage_all_mismatch_no_batch env s pn hv
  exact ⟨hb'.trans hb, hs'.trans hs⟩

/-- Witness for C9: two claimed pages over a carousel whose only view
shows 0 visible items; the pre-existing store row survives unchanged and
nothing is written. -/
theorem all_mismatch_store_untouched_witness :
    (resultSt (runScript { pagination := some 2, views := [[]], discoverVisible := true,
                           nextBtnPresent := true } (some [["x"]]))).batches = [] ∧
    (resultSt (runScript { pagination := some 2, views := [[]], discoverVisible := true,
                           nextBtnPresent := true } (some [["x"]]))).store = some [["x"]] :=
  all_mismatch_store_untouched
    { pagination := some 2, views := [[]], discoverVisible := true, nextBtnPresent := true }
    (some [["x"]]) (by decide) (by decide)

/-! ### C10: every batch holds at most 8 records, all tagged with its page -/

/-- Every batch handed to the writer so far holds at most 8 records, all
carrying the page number of the loop iteration that produced it. -/
def BatchInv (s : St) : Prop :=
  ∀ b ∈ s.batches, b.2.length ≤ EXPECTED_TRACKS_PER_PAGE ∧ ∀ t ∈ b.2, t.page = b.1

theorem batchInv_processPage (env : Env) (s : St) (pn : Nat) (h : BatchInv s) :
    BatchInv (resultSt (processPage env s pn)) := by
  rcases processPage_cases env s pn with hc | hc | ⟨hlen, pos', clicks', hc⟩
  · rw [hc]; exact h
  · rw [hc]; exact h
  · rw [hc]
    intro b hb
    rcases List.mem_append.mp hb with hold | hnew
    · exact h b hold
    · have hbeq : b = (pn, (collect_track_info
          ((env.views.getD s.pos []).filter (fun i => i.displayed)) s.cursor pn).1) := by
        simpa using hnew
      subst hbeq
      refine ⟨?_, fun t ht => collect_pages_eq _ _ _ t ht⟩
      calc (collect_track_info
              ((env.views.getD s.pos []).filter (fun i => i.displayed)) s.cursor pn).1.length
          ≤ ((env.views.getD s.pos []).filter (fun i => i.displayed)).length :=
            collect_length_le _ _ _
        _ = EXPECTED_TRACKS_PER_PAGE := hlen

/-- C10: every batch passed to the Record Writer during a run contains
at most 8 records, and all its records carry the same page field — the
1-based number of the loop iteration that produced the batch. -/
theorem batch_bounded_same_page (env : Env) (store0 : Option (List (List String)))
    (pn : Nat) (batch : List Track)
    (h : (pn, batch) ∈ (resultSt (runScript env store0)).batches) :
    batch.length ≤ EXPECTED_TRACKS_PER_PAGE ∧ ∀ t ∈ batch, t.page = pn := by
  have hinv : BatchInv (resultSt (runScript env store0)) := by
    refine runScript_preserve BatchInv env store0
      (fun s pn h => batchInv_processPage env s pn h) (fun s h => h) ?_
    intro b hb
    simp [initSt] at hb
  exact hinv (pn, batch) h

/-- Witness for C10: one page of 8 identical well-formed items produces
the single batch of the run; it holds at most 8 records and all of them
carry page number 1. -/
theorem batch_bounded_same_page_witness :
    (collect_track_info (List.replicate 8
        { displayed := true, titleText := some "t", artistText := some "a",
          genreText := some "g" }) 1 1).1.length ≤ EXPECTED_TRACKS_PER_PAGE ∧
    ∀ t ∈ (collect_track_info (List.replicate 8
        { displayed := true, titleText := some "t", artistText := some "a",
          genreText := some "g" }) 1 1).1, t.page = 1 :=
  batch_bounded_same_page
    { pagination := some 1,
      views := [List.replicate 8
        { displayed := true, titleText := some "t", artistText := some "a",
          genreText := some "g" }],
      discoverVisible := true, nextBtnPresent := true } none 1 _ (by decide)

/-! ### C6: end-to-end run over a 2-page carousel of well-formed items -/

theorem collect_wf_length : ∀ (items : List Item) (c pn : Nat),
    (∀ i ∈ items, wellFormed i = true) →
    (collect_track_info items c pn).1.length = items.length
  | [], c, pn, _ => by simp [collect_track_info]
  | item :: rest, c, pn, h => by
    have ih1 := collect_wf_length rest (c + 1) pn (fun i hi => h i (by simp [hi]))
    have hitem := h item (by simp)
    rcases item with ⟨d, t, a, g⟩
    cases t <;> cases a <;> cases g
    case some.some.some => simp [collect_track_info, ih1]
    all_goals simp [wellFormed] at hitem

theorem map_page_replicate {l : List Track} {pn : Nat} (h : ∀ t ∈ l, t.page = pn) :
    l.map Track.page = List.replicate l.length pn := by
  induction l with
  | nil => simp
  | cons x xs ih =>
    simp [h x (by simp), ih (fun t ht => h t (by simp [ht])), List.replicate_succ]

theorem filter_displayed_of_good {p : List Item} (h : ∀ i ∈ p, goodItem i = true) :
    p.filter (fun i => i.displayed) = p := by
  refine List.filter_eq_self.mpr (fun i hi => ?_)
  have := h i hi
  simp only [goodItem, Bool.and_eq_true] at this
  exact this.1

theorem wf_of_good {p : List Item} (h : ∀ i ∈ p, goodItem i = true) :
    ∀ i ∈ p, wellFormed i = true := by
  intro i hi
  have := h i hi
  simp only [goodItem, Bool.and_eq_true] at this
  exact this.2

/-- C6: over a 2-page carousel whose views each present exactly 8
displayed, fully well-formed items, a run against a nonexistent store
completes with a store of exactly 1 header row followed by the 16
written data rows, whose sequence ids are 1..16 in order and whose page
numbers are 1 on the first 8 records and 2 on the following 8. -/
theorem two_page_run_store (p1 p2 : List Item)
    (h1 : p1.length = 8) (h2 : p2.length = 8)
    (hg1 : ∀ i ∈ p1, goodItem i = true) (hg2 : ∀ i ∈ p2, goodItem i = true) :
    ∃ s, runScript { pagination := some 2, views := [p1, p2], discoverVisible := true,
                     nextBtnPresent := true } none = Except.ok s ∧
      s.headersWritten = 1 ∧
      s.store = some (trackFields :: (writtenTracks s).map trackToRow) ∧
      (writtenTracks s).length = 16 ∧
      (writtenTracks s).map Track.id = List.range' 1 16 ∧
      (writtenTracks s).map Track.page = List.replicate 8 1 ++ List.replicate 8 2 := by
  have hf1 : p1.filter (fun i => i.displayed) = p1 := filter_displayed_of_good hg1
  have hf2 : p2.filter (fun i => i.displayed) = p2 := filter_displayed_of_good hg2
  have hw1 := wf_of_good hg1
  have hw2 := wf_of_good hg2
  have hl1 : (collect_track_info p1 1 1).1.length = 8 :=
    (collect_wf_length p1 1 1 hw1).trans h1
  have hc1 : (collect_track_info p1 1 1).2.1 = 9 := by
    rw [collect_cursor_eq, hl1]
  have hl2 : (collect_track_info p2 9 2).1.length = 8 :=
    (collect_wf_length p2 9 2 hw2).trans h2
  have hp1 : processPage { pagination := some 2, views := [p1, p2], discoverVisible := true,
                           nextBtnPresent := true } (initSt none) 1 =
      Except.ok { file_exists := true
                  store := some (trackFields :: (collect_track_info p1 1 1).1.map trackToRow)
                  cursor := 9
                  pos := 1
                  clicks := 1
                  headersWritten := 1
                  batches := [(1, (collect_track_info p1 1 1).1)]
                  log := (collect_track_info p1 1 1).2.2
                  browserOpen := true } := by
    simp [processPage, initSt, hf1, h1, EXPECTED_TRACKS_PER_PAGE,
      append_tracks_to_csv, storeContents, trackFields, hc1]
  have hp2 : processPage { pagination := some 2, views := [p1, p2], discoverVisible := true,
                           nextBtnPresent := true }
      { file_exists := true
        store := some (trackFields :: (collect_track_info p1 1 1).1.map trackToRow)
        cursor := 9
        pos := 1
        clicks := 1
        headersWritten := 1
        batches := [(1, (collect_track_info p1 1 1).1)]
        log := (collect_track_info p1 1 1).2.2
        browserOpen := true } 2 =
      Except.ok { file_exists := true
                  store := some (trackFields :: ((collect_track_info p1 1 1).1.map trackToRow ++
                    (collect_track_info p2 9 2).1.map trackToRow))
                  cursor := (collect_track_info p2 9 2).2.1
                  pos := 2
                  clicks := 2
                  headersWritten := 1
                  batches := [(1, (collect_track_info p1 1 1).1),
                              (2, (collect_track_info p2 9 2).1)]
                  log := (collect_track_info p1 1 1).2.2 ++ (collect_track_info p2 9 2).2.2
                  browserOpen := true } := by
    simp [processPage, hf2, h2, EXPECTED_TRACKS_PER_PAGE,
      append_tracks_to_csv, storeContents]
  refine ⟨{ file_exists := true
            store := some (trackFields :: ((collect_track_info p1 1 1).1.map trackToRow ++
                      (collect_track_info p2 9 2).1.map trackToRow))
            cursor := (collect_track_info p2 9 2).2.1
            pos := 2
            clicks := 2
            headersWritten := 1
            batches := [(1, (collect_track_info p1 1 1).1), (2, (collect_track_info p2 9 2).1)]
            log := ((collect_track_info p1 1 1).2.2 ++ (collect_track_info p2 9 2).2.2) ++
                     [LogEntry.browserClosed]
            browserOpen := false }, ?_, ?_, ?_, ?_, ?_, ?_⟩
  · have hgt : get_tracks { pagination := some 2, views := [p1, p2], discoverVisible := true,
                            nextBtnPresent := true } none =
        runPages { pagination := some 2, views := [p1, p2], discoverVisible := true,
                   nextBtnPresent := true } [1, 2] (initSt none) := rfl
    have hloop : runPages { pagination := some 2, views := [p1, p2], discoverVisible := true,
                            nextBtnPresent := true } [1, 2] (initSt none) =
        Except.ok { file_exists := true
                    store := some (trackFields :: ((collect_track_info p1 1 1).1.map trackToRow ++
                              (collect_track_info p2 9 2).1.map trackToRow))
                    cursor := (collect_track_info p2 9 2).2.1
                    pos := 2
                    clicks := 2
                    headersWritten := 1
                    batches := [(1, (collect_track_info p1 1 1).1),
                                (2, (collect_track_info p2 9 2).1)]
                    log := (collect_track_info p1 1 1).2.2 ++ (collect_track_info p2 9 2).2.2
                    browserOpen := true } := by
      simp only [runPages, hp1, hp2]
    simp only [runScript]
    rw [hgt, hloop]
    simp [closeBrowser]
  · rfl
  · simp [writtenTracks, flatBatches, List.map_append]
  · simp [writtenTracks, flatBatches, hl1, hl2]
  · simp only [writtenTracks, flatBatches, List.append_nil, List.map_append]
    rw [collect_ids_eq, collect_ids_eq, hl1, hl2]
    simpa using List.range'_append_1 1 8 8
  · simp only [writtenTracks, flatBatches, List.append_nil, List.map_append]
    rw [map_page_replicate (collect_pages_eq p1 1 1),
        map_page_replicate (collect_pages_eq p2 9 2), hl1, hl2]

/-- Witness for C6: two concrete views of 8 well-formed items each. -/
theorem two_page_run_store_witness :
    ∃ s, runScript
        { pagination := some 2
          views := [List.replicate 8
            { displayed := true, titleText := some "t", artistText := some "a",
              genreText := some "g" },
            List.replicate 8
            { displayed := true, titleText := some "u", artistText := some "b",
              genreText := some "h" }]
          discoverVisible := true
          nextBtnPresent := true } none = Except.ok s ∧
      s.headersWritten = 1 ∧
      s.store = some (trackFields :: (writtenTracks s).map trackToRow) ∧
      (writtenTracks s).length = 16 ∧
      (writtenTracks s).map Track.id = List.range' 1 16 ∧
      (writtenTracks s).map Track.page = List.replicate 8 1 ++ List.replicate 8 2 :=
  two_page_run_store
    (List.replicate 8
      { displayed := true, titleText := some "t", artistText := some "a",
        genreText := some "g" })
    (List.replicate 8
      { displayed := true, titleText := some "u", artistText := some "b",
        genreText := some "h" })
    (by decide) (by decide) (by decide) (by decide)
